import Mathlib

set_option maxRecDepth 8192

/-!
Shallow embedding of the notification service: the data model of models.py,
the validation of schemas.py, the store operations of crud.py, the submission
path of main.py, and the Celery delivery task of tasks.py together with the
Celery retry semantics the task relies on (max_retries, default_retry_delay,
Task.retry re-enqueueing the message and raising Retry, autoretry_for).
-/

/-- models.py NotificationType: the channel enum, with values
"email" / "sms" / "in-app". -/
inductive NotificationType where
  | email
  | sms
  | in_app
deriving DecidableEq, Repr

/-- models.py NotificationStatus: the five-valued status enum. -/
inductive NotificationStatus where
  | pending
  | sent
  | failed
  | delivered
  | seen
deriving DecidableEq, Repr

/-- models.py Notification: one row of the notifications table.  The
timestamp columns created_at / updated_at are set by the database and carry
no program logic, so they are not modelled. -/
structure Notification where
  id : Nat
  user_id : Nat
  type : NotificationType
  message : String
  status : NotificationStatus
  recipient_address : Option String
deriving DecidableEq, Repr

/-- crud.py get_notification_by_id: first row whose id matches. -/
def get_notification_by_id (db : List Notification) (nid : Nat) :
    Option Notification :=
  db.find? (fun n => n.id == nid)

/-- The assignment db_notification.status = status performed by
crud.py update_notification_status: only the status column changes. -/
def setStatus (n : Notification) (st : NotificationStatus) : Notification :=
  ⟨n.id, n.user_id, n.type, n.message, st, n.recipient_address⟩

/-- Per-row effect of the commit in crud.py update_notification_status:
the row with the matching id gets the new status, every other row is
untouched. -/
def overwriteStatus (nid : Nat) (st : NotificationStatus)
    (m : Notification) : Notification :=
  if m.id == nid then setStatus m st else m

/-- crud.py update_notification_status: look the row up by id; if present,
overwrite its status unconditionally, commit, and return the refreshed row;
if absent return None and leave the table unchanged. -/
def update_notification_status (db : List Notification) (nid : Nat)
    (st : NotificationStatus) : List Notification × Option Notification :=
  match get_notification_by_id db nid with
  | none => (db, none)
  | some n =>
      (db.map (overwriteStatus nid st), some (setStatus n st))

/-- schemas.py NotificationCreate: the validated request body. -/
structure NotificationCreate where
  user_id : Nat
  type : NotificationType
  message : String
  recipient_address : Option String
deriving DecidableEq, Repr

/-- Pydantic coercion of the request's channel string into the
NotificationType enum of models.py. -/
def parse_notification_type (s : String) : Option NotificationType :=
  if s == "email" then some NotificationType.email
  else if s == "sms" then some NotificationType.sms
  else if s == "in-app" then some NotificationType.in_app
  else none

/-- schemas.py NotificationBase validation: the channel string must be one of
the enum values and message has constr min_length 1 (cannot be empty). -/
def validate_notification_create (uid : Nat) (typeStr : String) (msg : String)
    (addr : Option String) : Option NotificationCreate :=
  match parse_notification_type typeStr with
  | none => none
  | some t => if 1 ≤ msg.length then some ⟨uid, t, msg, addr⟩ else none

/-- id assignment of the autoincrement primary key column. -/
def nextId (db : List Notification) : Nat :=
  (db.map (fun n => n.id)).foldl (fun a b => max a b) 0 + 1

/-- crud.py create_notification: insert a fresh row with
status=NotificationStatus.PENDING and return it. -/
def create_notification (db : List Notification) (nc : NotificationCreate) :
    List Notification × Notification :=
  let row : Notification :=
    ⟨nextId db, nc.user_id, nc.type, nc.message, NotificationStatus.pending,
     nc.recipient_address⟩
  (db ++ [row], row)

/-- main.py POST /notifications: pydantic validates the body; on failure the
request is rejected with 422 and no row is created; on success
crud.create_notification inserts the row (the Celery enqueue that follows
does not touch the table). -/
def submit_notification (db : List Notification) (uid : Nat)
    (typeStr : String) (msg : String) (addr : Option String) :
    List Notification × Option Notification :=
  match validate_notification_create uid typeStr msg addr with
  | none => (db, none)
  | some nc =>
      let res := create_notification db nc
      (res.1, some res.2)

/-- config.py Settings.TASK_RETRY_MAX_RETRIES default. -/
def TASK_RETRY_MAX_RETRIES : Nat := 3

/-- config.py Settings.TASK_RETRY_DEFAULT_DELAY default (seconds). -/
def TASK_RETRY_DEFAULT_DELAY : Nat := 60

/-- The exception classes the task's except-cascade distinguishes:
kombu.exceptions.OperationalError (broker connection), smtplib.SMTPException,
and every other Exception (sqlalchemy errors, TwilioRestException, TypeError
from the email library, ...). -/
inductive ExcKind where
  | brokerOp
  | smtp
  | generic
deriving DecidableEq, Repr

/-- Exception classes a channel sender can raise: _send_actual_email
re-raises smtplib.SMTPException or any other Exception; _send_actual_sms
re-raises TwilioRestException or any other Exception (both generic at the
task's except-cascade, since the TwilioRestException clause is commented
out).  No sender raises kombu's OperationalError, a broker-client class. -/
def senderRaisable (k : ExcKind) : Prop :=
  k = ExcKind.smtp ∨ k = ExcKind.generic

/-- One execution's environment: what the external transport does when the
sender is invoked with a present address (none = the send succeeds and the
sender returns True), and whether the store is reachable for status writes
during this execution. -/
structure ExecEnv where
  senderFail : Option ExcKind
  storeOk : Bool
deriving DecidableEq, Repr

/-- The kwargs main.py passes to send_notification_task.delay: a flat copy of
the row's fields; notification_type is a plain string. -/
structure WorkItem where
  notification_id : Nat
  notification_type : String
  user_id : Nat
  message : String
  recipient_address : Option String
deriving DecidableEq, Repr

/-- Observable effect of one execution of send_notification_task:
the store after the execution, the statuses successfully written to the
row (in order), whether a channel sender was invoked, the countdowns of the
re-enqueued copies of the item (retry calls re-send the message before
raising Retry), and whether the task ended by raising with retries
exhausted (permanent failure: the item is not re-enqueued). -/
structure StepResult where
  db : List Notification
  writes : List NotificationStatus
  sendAttempted : Bool
  resends : List Nat
  permafail : Bool
deriving DecidableEq, Repr

/-- A status write performed from inside the task body:
crud.update_notification_status against a reachable store commits (and is a
silent no-op when the row is missing); an unreachable store raises a
sqlalchemy error, a generic Exception at the task's except-cascade. -/
def task_update_status (storeOk : Bool) (db : List Notification) (nid : Nat)
    (st : NotificationStatus) :
    Except ExcKind (List Notification × List NotificationStatus) :=
  if storeOk then
    match update_notification_status db nid st with
    | (db', some _) => Except.ok (db', [st])
    | (db', none) => Except.ok (db', [])
  else Except.error ExcKind.generic

/-- The task's except-cascade, given the exception k raised by the try block
at retry count r, plus the decorator-level Celery behavior:
* except OperationalError: self.retry(exc) — Task.retry re-enqueues the item
  with default_retry_delay and raises Retry when r < max_retries, otherwise
  it raises exc, which autoretry_for retries once more (again exhausted), so
  the task fails permanently without re-enqueueing;
* except SMTPException: self.retry(countdown=default_delay*(r+1)) — same
  shape with a linear-backoff countdown; no status is written on this path;
* except Exception: a nested try — when r >= max_retries it writes FAILED
  and returns (a second write attempt in the nested except if the first
  raised, the re-raise then failing the task permanently); when
  r < max_retries, self.retry re-enqueues with countdown
  default_delay*(r+1) and raises Retry, which the nested except Exception
  CATCHES (celery.exceptions.Retry derives from Exception): it writes
  FAILED to the row and re-raises; if that FAILED write itself raises, the
  store error replaces Retry, propagates, and autoretry_for re-enqueues a
  second copy with the default delay. -/
def handle_exception (item : WorkItem) (r : Nat) (env : ExecEnv)
    (db : List Notification) (ws : List NotificationStatus) (sa : Bool)
    (k : ExcKind) : StepResult :=
  match k with
  | ExcKind.brokerOp =>
      if r < TASK_RETRY_MAX_RETRIES then
        ⟨db, ws, sa, [TASK_RETRY_DEFAULT_DELAY], false⟩
      else
        ⟨db, ws, sa, [], true⟩
  | ExcKind.smtp =>
      if r < TASK_RETRY_MAX_RETRIES then
        ⟨db, ws, sa, [TASK_RETRY_DEFAULT_DELAY * (r + 1)], false⟩
      else
        ⟨db, ws, sa, [], true⟩
  | ExcKind.generic =>
      if r < TASK_RETRY_MAX_RETRIES then
        match task_update_status env.storeOk db item.notification_id
            NotificationStatus.failed with
        | Except.ok (db', ws') =>
            ⟨db', ws ++ ws', sa, [TASK_RETRY_DEFAULT_DELAY * (r + 1)], false⟩
        | Except.error _ =>
            ⟨db, ws, sa,
             [TASK_RETRY_DEFAULT_DELAY * (r + 1), TASK_RETRY_DEFAULT_DELAY],
             false⟩
      else
        match task_update_status env.storeOk db item.notification_id
            NotificationStatus.failed with
        | Except.ok (db', ws') => ⟨db', ws ++ ws', sa, [], false⟩
        | Except.error _ =>
            match task_update_status env.storeOk db item.notification_id
                NotificationStatus.failed with
            | Except.ok (db', ws') => ⟨db', ws ++ ws', sa, [], true⟩
            | Except.error _ => ⟨db, ws, sa, [], true⟩

/-- The success branch of the try block: the sender returned True, so the
task writes SENT and, for channel "in-app", additionally DELIVERED as a
second sequential write; a store error from either write falls into the
generic except clause. -/
def success_path (db : List Notification) (item : WorkItem) (r : Nat)
    (env : ExecEnv) : StepResult :=
  match task_update_status env.storeOk db item.notification_id
      NotificationStatus.sent with
  | Except.error k => handle_exception item r env db [] true k
  | Except.ok (db1, ws1) =>
      if item.notification_type == "in-app" then
        match task_update_status env.storeOk db1 item.notification_id
            NotificationStatus.delivered with
        | Except.error k => handle_exception item r env db1 ws1 true k
        | Except.ok (db2, ws2) => ⟨db2, ws1 ++ ws2, true, [], false⟩
      else ⟨db1, ws1, true, [], false⟩

/-- tasks.py send_notification_task, one execution at retry count r
(self.request.retries).  Dispatch on the raw notification_type string:
* "email" / "sms": the sender is invoked; with no recipient_address the
  transport raises before any protocol send completes (the email library
  fails on a None address, the SMS gateway rejects it), re-raised by the
  sender's blanket except and seen by the task as a generic Exception; with
  an address present the environment decides success or the raised class;
* "in-app": _handle_in_app_notification only logs and returns True;
* any other string: update the row to FAILED and return — no retry. -/
def send_notification_task (db : List Notification) (item : WorkItem)
    (r : Nat) (env : ExecEnv) : StepResult :=
  if item.notification_type == "email" || item.notification_type == "sms" then
    match item.recipient_address with
    | none => handle_exception item r env db [] true ExcKind.generic
    | some _ =>
        match env.senderFail with
        | some k => handle_exception item r env db [] true k
        | none => success_path db item r env
  else if item.notification_type == "in-app" then
    success_path db item r env
  else
    match task_update_status env.storeOk db item.notification_id
        NotificationStatus.failed with
    | Except.ok (db', ws') => ⟨db', ws', false, [], false⟩
    | Except.error k => handle_exception item r env db [] false k

/-- Accumulated observation of a redelivery chain. -/
structure RunResult where
  db : List Notification
  writes : List NotificationStatus
  sendCount : Nat
deriving DecidableEq, Repr

/-- Run the item's redelivery chain: execute once per environment, follow the
re-enqueued copy with retry count r+1 while one exists (when the store is
reachable at most one copy is re-enqueued per execution, so the chain is
linear), stop when the execution ends without re-enqueueing. -/
def run_task_chain (envs : List ExecEnv) (db : List Notification)
    (item : WorkItem) (r : Nat) : RunResult :=
  match envs with
  | [] => ⟨db, [], 0⟩
  | env :: rest =>
      let s := send_notification_task db item r env
      let c : Nat := if s.sendAttempted then 1 else 0
      if s.resends.isEmpty then ⟨s.db, s.writes, c⟩
      else
        let t := run_task_chain rest s.db item (r + 1)
        ⟨t.db, s.writes ++ t.writes, c + t.sendCount⟩

/-- An operation of the system that touches the store. -/
inductive Op where
  | createOp (nc : NotificationCreate)
  | taskOp (item : WorkItem) (r : Nat) (env : ExecEnv)

/-- Effect of one operation on the store. -/
def apply_op (db : List Notification) (op : Op) : List Notification :=
  match op with
  | Op.createOp nc => (create_notification db nc).1
  | Op.taskOp item r env => (send_notification_task db item r env).db

/-- Effect of a sequence of operations on the store. -/
def apply_ops (db : List Notification) (ops : List Op) : List Notification :=
  ops.foldl apply_op db

/-- The four status values the written spec allows. -/
def status_in_spec_set (st : NotificationStatus) : Bool :=
  match st with
  | NotificationStatus.seen => false
  | _ => true

/-- Every row's status lies in the spec's four-valued set. -/
def goodDb (db : List Notification) : Bool :=
  db.all (fun n => status_in_spec_set n.status)

/-- A pending email notification row (id 1, user 7), as created by a
submission with channel "email". -/
def notif1 : Notification :=
  ⟨1, 7, NotificationType.email, "hi", NotificationStatus.pending,
   some "a@b.com"⟩

/-- A store holding just notif1. -/
def db0 : List Notification := [notif1]

/-- The work item main.py enqueues for notif1. -/
def item1 : WorkItem := ⟨1, "email", 7, "hi", some "a@b.com"⟩

/-- item1 with the recipient address absent. -/
def itemNoAddr : WorkItem := ⟨1, "email", 7, "hi", none⟩

/-- A work item whose channel string is outside the recognized set. -/
def itemUnknown : WorkItem := ⟨1, "push", 7, "hi", none⟩

/-- A pending in-app notification row and its store and work item. -/
def notif2 : Notification :=
  ⟨2, 7, NotificationType.in_app, "yo", NotificationStatus.pending, none⟩

def dbInApp : List Notification := [notif2]

def itemInApp : WorkItem := ⟨2, "in-app", 7, "yo", none⟩

/-- Environment: transport succeeds, store reachable. -/
def envUp : ExecEnv := ⟨none, true⟩

/-- Environment: transport succeeds, store unreachable. -/
def envDown : ExecEnv := ⟨none, false⟩

/-- Environment: transport raises smtplib.SMTPException, store reachable. -/
def envSmtp : ExecEnv := ⟨some ExcKind.smtp, true⟩

/-- Environment: transport raises a generic Exception (e.g. a
TwilioRestException), store reachable. -/
def envGen : ExecEnv := ⟨some ExcKind.generic, true⟩

/-! ### Store lemmas -/

lemma setStatus_setStatus (n : Notification) (st st' : NotificationStatus) :
    setStatus (setStatus n st) st' = setStatus n st' := rfl

lemma overwriteStatus_id (nid : Nat) (st : NotificationStatus)
    (m : Notification) : (overwriteStatus nid st m).id = m.id := by
  unfold overwriteStatus
  by_cases h : (m.id == nid) = true
  · simp [h, setStatus]
  · simp [h]

lemma find_map_overwrite (db : List Notification) (nid : Nat)
    (st : NotificationStatus) :
    (db.map (overwriteStatus nid st)).find? (fun m => m.id == nid)
      = (db.find? (fun m => m.id == nid)).map (fun m => setStatus m st) := by
  induction db with
  | nil => rfl
  | cons a l ih =>
      cases h : a.id == nid with
      | true => simp [List.find?, overwriteStatus, setStatus, h]
      | false => simp [List.find?, overwriteStatus, h, ih]

lemma update_found (db : List Notification) (nid : Nat)
    (st : NotificationStatus) (n : Notification)
    (h : get_notification_by_id db nid = some n) :
    update_notification_status db nid st
      = (db.map (overwriteStatus nid st), some (setStatus n st)) := by
  unfold update_notification_status
  rw [h]

lemma update_not_found (db : List Notification) (nid : Nat)
    (st : NotificationStatus)
    (h : get_notification_by_id db nid = none) :
    update_notification_status db nid st = (db, none) := by
  unfold update_notification_status
  rw [h]

lemma get_update_self (db : List Notification) (nid : Nat)
    (st : NotificationStatus) (n : Notification)
    (h : get_notification_by_id db nid = some n) :
    get_notification_by_id (update_notification_status db nid st).1 nid
      = some (setStatus n st) := by
  rw [update_found db nid st n h]
  unfold get_notification_by_id at h ⊢
  rw [find_map_overwrite, h]
  rfl

lemma map_overwrite_idem (db : List Notification) (nid : Nat)
    (st : NotificationStatus) :
    (db.map (overwriteStatus nid st)).map (overwriteStatus nid st)
      = db.map (overwriteStatus nid st) := by
  rw [List.map_map]
  apply List.map_congr_left
  intro m _
  unfold Function.comp overwriteStatus
  by_cases h : (m.id == nid) = true
  · simp [h, setStatus]
  · simp [h]

lemma update_idempotent (db : List Notification) (nid : Nat)
    (st : NotificationStatus) :
    update_notification_status (update_notification_status db nid st).1 nid st
      = update_notification_status db nid st := by
  cases h : get_notification_by_id db nid with
  | none =>
      rw [update_not_found db nid st h]
      exact update_not_found db nid st h
  | some n =>
      have hg : get_notification_by_id
          (update_notification_status db nid st).1 nid
            = some (setStatus n st) := get_update_self db nid st n h
      rw [update_found db nid st n h] at hg ⊢
      rw [update_found _ nid st _ hg, map_overwrite_idem]
      rfl

/-! ### Task-level write lemmas -/

lemma task_update_status_found (db : List Notification) (nid : Nat)
    (st : NotificationStatus) (n : Notification)
    (hget : get_notification_by_id db nid = some n) :
    task_update_status true db nid st
      = Except.ok (db.map (overwriteStatus nid st), [st]) := by
  unfold task_update_status
  rw [update_found db nid st n hget]
  rfl

lemma task_update_status_not_found (db : List Notification) (nid : Nat)
    (st : NotificationStatus)
    (hget : get_notification_by_id db nid = none) :
    task_update_status true db nid st = Except.ok (db, []) := by
  unfold task_update_status
  rw [update_not_found db nid st hget]
  rfl

lemma task_update_status_ok_exists (db : List Notification) (nid : Nat)
    (st : NotificationStatus) :
    ∃ p, task_update_status true db nid st = Except.ok p := by
  cases hg : get_notification_by_id db nid with
  | none => exact ⟨_, task_update_status_not_found db nid st hg⟩
  | some n => exact ⟨_, task_update_status_found db nid st n hg⟩

lemma task_update_status_false (db : List Notification) (nid : Nat)
    (st : NotificationStatus) :
    task_update_status false db nid st = Except.error ExcKind.generic := rfl

/-! ### Handler shape lemmas -/

lemma handle_exception_sendAttempted (item : WorkItem) (r : Nat)
    (env : ExecEnv) (db : List Notification) (ws : List NotificationStatus)
    (sa : Bool) (k : ExcKind) :
    (handle_exception item r env db ws sa k).sendAttempted = sa := by
  cases k with
  | brokerOp =>
      simp only [handle_exception]
      split <;> rfl
  | smtp =>
      simp only [handle_exception]
      split <;> rfl
  | generic =>
      simp only [handle_exception]
      split
      · split <;> rfl
      · split
        · rfl
        · split <;> rfl

lemma success_path_sendAttempted (db : List Notification) (item : WorkItem)
    (r : Nat) (env : ExecEnv) :
    (success_path db item r env).sendAttempted = true := by
  unfold success_path
  split
  · rw [handle_exception_sendAttempted]
  · split
    · split
      · rw [handle_exception_sendAttempted]
      · rfl
    · rfl

lemma handle_smtp_retry (item : WorkItem) (r : Nat) (env : ExecEnv)
    (db : List Notification) (ws : List NotificationStatus) (sa : Bool)
    (hr : r < TASK_RETRY_MAX_RETRIES) :
    handle_exception item r env db ws sa ExcKind.smtp
      = ⟨db, ws, sa, [TASK_RETRY_DEFAULT_DELAY * (r + 1)], false⟩ := by
  simp only [handle_exception]
  rw [if_pos hr]

lemma handle_smtp_exhausted (item : WorkItem) (r : Nat) (env : ExecEnv)
    (db : List Notification) (ws : List NotificationStatus) (sa : Bool)
    (hr : ¬ r < TASK_RETRY_MAX_RETRIES) :
    handle_exception item r env db ws sa ExcKind.smtp
      = ⟨db, ws, sa, [], true⟩ := by
  simp only [handle_exception]
  rw [if_neg hr]

lemma handle_generic_found (item : WorkItem) (r : Nat) (env : ExecEnv)
    (db : List Notification) (n : Notification)
    (hs : env.storeOk = true)
    (hget : get_notification_by_id db item.notification_id = some n) :
    handle_exception item r env db [] true ExcKind.generic
      = if r < TASK_RETRY_MAX_RETRIES then
          ⟨db.map (overwriteStatus item.notification_id
              NotificationStatus.failed),
           [NotificationStatus.failed], true,
           [TASK_RETRY_DEFAULT_DELAY * (r + 1)], false⟩
        else
          ⟨db.map (overwriteStatus item.notification_id
              NotificationStatus.failed),
           [NotificationStatus.failed], true, [], false⟩ := by
  have hp := task_update_status_found db item.notification_id
    NotificationStatus.failed n hget
  rw [← hs] at hp
  simp only [handle_exception]
  by_cases hr : r < TASK_RETRY_MAX_RETRIES
  · rw [if_pos hr, if_pos hr, hp]
    rfl
  · rw [if_neg hr, if_neg hr, hp]
    rfl

lemma handle_generic_store_down (item : WorkItem) (r : Nat) (env : ExecEnv)
    (db : List Notification) (ws : List NotificationStatus) (sa : Bool)
    (hr : r < TASK_RETRY_MAX_RETRIES) (hs : env.storeOk = false) :
    handle_exception item r env db ws sa ExcKind.generic
      = ⟨db, ws, sa,
         [TASK_RETRY_DEFAULT_DELAY * (r + 1), TASK_RETRY_DEFAULT_DELAY],
         false⟩ := by
  have hp : task_update_status env.storeOk db item.notification_id
      NotificationStatus.failed = Except.error ExcKind.generic := by
    rw [hs]
    rfl
  simp only [handle_exception]
  rw [if_pos hr, hp]

/-! ### Dispatch lemmas for send_notification_task -/

lemma send_task_no_address (db : List Notification) (item : WorkItem)
    (r : Nat) (env : ExecEnv)
    (hcond : (item.notification_type == "email"
        || item.notification_type == "sms") = true)
    (ha : item.recipient_address = none) :
    send_notification_task db item r env
      = handle_exception item r env db [] true ExcKind.generic := by
  unfold send_notification_task
  rw [hcond, ha]
  rfl

lemma send_task_sender_fail (db : List Notification) (item : WorkItem)
    (r : Nat) (env : ExecEnv) (a : String) (k : ExcKind)
    (hcond : (item.notification_type == "email"
        || item.notification_type == "sms") = true)
    (ha : item.recipient_address = some a)
    (hsf : env.senderFail = some k) :
    send_notification_task db item r env
      = handle_exception item r env db [] true k := by
  unfold send_notification_task
  rw [hcond, ha, hsf]
  rfl

lemma send_task_sender_ok (db : List Notification) (item : WorkItem)
    (r : Nat) (env : ExecEnv) (a : String)
    (hcond : (item.notification_type == "email"
        || item.notification_type == "sms") = true)
    (ha : item.recipient_address = some a)
    (hsf : env.senderFail = none) :
    send_notification_task db item r env = success_path db item r env := by
  unfold send_notification_task
  rw [hcond, ha, hsf]
  rfl

lemma send_task_in_app (db : List Notification) (item : WorkItem)
    (r : Nat) (env : ExecEnv)
    (ht : item.notification_type = "in-app") :
    send_notification_task db item r env = success_path db item r env := by
  have hcond : (item.notification_type == "email"
      || item.notification_type == "sms") = false := by
    rw [ht]
    rfl
  have h3 : (item.notification_type == "in-app") = true := by
    rw [ht]
    rfl
  unfold send_notification_task
  rw [hcond, h3]
  rfl

lemma send_task_unknown (db : List Notification) (item : WorkItem)
    (r : Nat) (env : ExecEnv) (n : Notification)
    (h1 : (item.notification_type == "email") = false)
    (h2 : (item.notification_type == "sms") = false)
    (h3 : (item.notification_type == "in-app") = false)
    (hs : env.storeOk = true)
    (hget : get_notification_by_id db item.notification_id = some n) :
    send_notification_task db item r env
      = ⟨db.map (overwriteStatus item.notification_id
            NotificationStatus.failed),
         [NotificationStatus.failed], false, [], false⟩ := by
  have hp := task_update_status_found db item.notification_id
    NotificationStatus.failed n hget
  rw [← hs] at hp
  unfold send_notification_task
  rw [h1, h2, h3, hp]
  rfl

/-! ### Status-set invariant lemmas -/

lemma goodDb_update (db : List Notification) (nid : Nat)
    (st : NotificationStatus) (hst : status_in_spec_set st = true)
    (h : goodDb db = true) :
    goodDb (update_notification_status db nid st).1 = true := by
  cases hg : get_notification_by_id db nid with
  | none =>
      rw [update_not_found db nid st hg]
      exact h
  | some n =>
      rw [update_found db nid st n hg]
      show goodDb (db.map (overwriteStatus nid st)) = true
      unfold goodDb at h ⊢
      rw [List.all_eq_true] at h ⊢
      intro x hx
      rw [List.mem_map] at hx
      obtain ⟨m, hm, hfm⟩ := hx
      subst hfm
      unfold overwriteStatus
      by_cases hid : (m.id == nid) = true
      · simp only [hid, if_true]
        simpa [setStatus] using hst
      · simp only [hid]
        simpa using h m hm

lemma goodDb_task_update (sOk : Bool) (db : List Notification) (nid : Nat)
    (st : NotificationStatus) (db' : List Notification)
    (ws : List NotificationStatus) (hst : status_in_spec_set st = true)
    (h : goodDb db = true)
    (he : task_update_status sOk db nid st = Except.ok (db', ws)) :
    goodDb db' = true := by
  cases sOk with
  | false => simp [task_update_status] at he
  | true =>
      have hgood := goodDb_update db nid st hst h
      unfold task_update_status at he
      cases hu : update_notification_status db nid st with
      | mk dbu ru =>
          rw [hu] at he hgood
          cases ru with
          | none =>
              simp only [if_true] at he
              have : dbu = db' := by
                simpa using congrArg (fun e => match e with
                  | Except.ok p => p.1 | Except.error _ => dbu) he
              rw [← this]
              exact hgood
          | some x =>
              simp only [if_true] at he
              have : dbu = db' := by
                simpa using congrArg (fun e => match e with
                  | Except.ok p => p.1 | Except.error _ => dbu) he
              rw [← this]
              exact hgood

lemma goodDb_handle (item : WorkItem) (r : Nat) (env : ExecEnv)
    (db : List Notification) (ws : List NotificationStatus) (sa : Bool)
    (k : ExcKind) (h : goodDb db = true) :
    goodDb (handle_exception item r env db ws sa k).db = true := by
  cases k with
  | brokerOp =>
      simp only [handle_exception]
      split <;> exact h
  | smtp =>
      simp only [handle_exception]
      split <;> exact h
  | generic =>
      simp only [handle_exception]
      split
      · cases he : task_update_status env.storeOk db item.notification_id
            NotificationStatus.failed with
        | ok p =>
            cases p with
            | mk db' ws' =>
                show goodDb db' = true
                exact goodDb_task_update env.storeOk db item.notification_id
                  NotificationStatus.failed db' ws' rfl h he
        | error e => exact h
      · cases he : task_update_status env.storeOk db item.notification_id
            NotificationStatus.failed with
        | ok p =>
            cases p with
            | mk db' ws' =>
                show goodDb db' = true
                exact goodDb_task_update env.storeOk db item.notification_id
                  NotificationStatus.failed db' ws' rfl h he
        | error e => exact h

lemma goodDb_success (db : List Notification) (item : WorkItem) (r : Nat)
    (env : ExecEnv) (h : goodDb db = true) :
    goodDb (success_path db item r env).db = true := by
  unfold success_path
  cases he : task_update_status env.storeOk db item.notification_id
      NotificationStatus.sent with
  | error k => exact goodDb_handle item r env db [] true k h
  | ok p =>
      cases p with
      | mk db1 ws1 =>
          have h1 : goodDb db1 = true :=
            goodDb_task_update env.storeOk db item.notification_id
              NotificationStatus.sent db1 ws1 rfl h he
          dsimp only
          by_cases hin : (item.notification_type == "in-app") = true
          · rw [if_pos hin]
            cases he2 : task_update_status env.storeOk db1
                item.notification_id NotificationStatus.delivered with
            | error k => exact goodDb_handle item r env db1 ws1 true k h1
            | ok p2 =>
                cases p2 with
                | mk db2 ws2 =>
                    show goodDb db2 = true
                    exact goodDb_task_update env.storeOk db1
                      item.notification_id NotificationStatus.delivered db2
                      ws2 rfl h1 he2
          · rw [if_neg hin]
            exact h1

lemma goodDb_send (db : List Notification) (item : WorkItem) (r : Nat)
    (env : ExecEnv) (h : goodDb db = true) :
    goodDb (send_notification_task db item r env).db = true := by
  unfold send_notification_task
  split
  · split
    · exact goodDb_handle item r env db [] true ExcKind.generic h
    · split
      · exact goodDb_handle item r env db [] true _ h
      · exact goodDb_success db item r env h
  · split
    · exact goodDb_success db item r env h
    · cases he : task_update_status env.storeOk db item.notification_id
          NotificationStatus.failed with
      | ok p =>
          cases p with
          | mk db' ws' =>
              show goodDb db' = true
              exact goodDb_task_update env.storeOk db item.notification_id
                NotificationStatus.failed db' ws' rfl h he
      | error k => exact goodDb_handle item r env db [] false k h

lemma goodDb_create (db : List Notification) (nc : NotificationCreate)
    (h : goodDb db = true) :
    goodDb (create_notification db nc).1 = true := by
  unfold create_notification goodDb at *
  rw [List.all_append]
  rw [h]
  rfl

lemma goodDb_apply_op (db : List Notification) (op : Op)
    (h : goodDb db = true) : goodDb (apply_op db op) = true := by
  cases op with
  | createOp nc => exact goodDb_create db nc h
  | taskOp item r env => exact goodDb_send db item r env h

/-! ### Claim theorems -/

/-- Claim C10: although the status enum of models.py contains a fifth value
seen, no operation of the system (creation, the executor's success path,
failure path, or unknown-channel path) ever writes it: starting from the
empty store, any sequence of create and delivery-task operations leaves
every stored status inside pending / sent / delivered / failed. -/
theorem C10_no_seen_ever_stored (ops : List Op) :
    goodDb (apply_ops [] ops) = true := by
  suffices h : ∀ (l : List Op) (db : List Notification),
      goodDb db = true → goodDb (apply_ops db l) = true by
    exact h ops [] rfl
  intro l
  induction l with
  | nil => intro db h; exact h
  | cons op rest ih =>
      intro db h
      exact ih (apply_op db op) (goodDb_apply_op db op h)

/-- Claim C9: update_notification_status on a present id overwrites only the
status column (the row keeps id, user_id, type, message, recipient_address;
every other row is untouched), reports not-found and changes nothing when the
id is absent, and repeating it with the same status is idempotent in
effect. -/
theorem C9_update_status_frame :
    (∀ (db : List Notification) (nid : Nat) (st : NotificationStatus),
      get_notification_by_id db nid = none →
        update_notification_status db nid st = (db, none))
    ∧ (∀ (db : List Notification) (nid : Nat) (st : NotificationStatus)
        (n : Notification), get_notification_by_id db nid = some n →
        update_notification_status db nid st
          = (db.map (overwriteStatus nid st), some (setStatus n st)))
    ∧ (∀ (n : Notification) (st : NotificationStatus),
        (setStatus n st).id = n.id ∧ (setStatus n st).user_id = n.user_id
        ∧ (setStatus n st).type = n.type
        ∧ (setStatus n st).message = n.message
        ∧ (setStatus n st).recipient_address = n.recipient_address
        ∧ (setStatus n st).status = st)
    ∧ (∀ (nid : Nat) (st : NotificationStatus) (m : Notification),
        m.id ≠ nid → overwriteStatus nid st m = m)
    ∧ (∀ (db : List Notification) (nid : Nat) (st : NotificationStatus),
        update_notification_status
            (update_notification_status db nid st).1 nid st
          = update_notification_status db nid st) := by
  refine ⟨update_not_found, update_found, ?_, ?_, update_idempotent⟩
  · intro n st
    exact ⟨rfl, rfl, rfl, rfl, rfl, rfl⟩
  · intro nid st m hm
    have hb : (m.id == nid) = false := beq_eq_false_iff_ne.mpr hm
    unfold overwriteStatus
    rw [hb]
    rfl

/-- Witness for C9 at a concrete store. -/
theorem C9_update_status_frame_witness :
    update_notification_status [] 5 NotificationStatus.failed = ([], none)
    ∧ update_notification_status db0 1 NotificationStatus.failed
        = (db0.map (overwriteStatus 1 NotificationStatus.failed),
           some (setStatus notif1 NotificationStatus.failed))
    ∧ update_notification_status
        (update_notification_status db0 1 NotificationStatus.failed).1 1
          NotificationStatus.failed
        = update_notification_status db0 1 NotificationStatus.failed := by
  exact ⟨C9_update_status_frame.1 [] 5 NotificationStatus.failed rfl,
    C9_update_status_frame.2.1 db0 1 NotificationStatus.failed notif1 rfl,
    C9_update_status_frame.2.2.2.2 db0 1 NotificationStatus.failed⟩

/-- Claim C7: a submission with an empty message always fails validation and
never creates a record; a submission that passes validation (non-empty
message, recognized channel) inserts exactly one new record and the returned
record's status is pending. -/
theorem C7_submission :
    (∀ (db : List Notification) (uid : Nat) (ts : String)
        (addr : Option String),
      submit_notification db uid ts "" addr = (db, none))
    ∧ (∀ (db : List Notification) (uid : Nat) (ts : String) (msg : String)
        (addr : Option String) (nc : NotificationCreate),
        validate_notification_create uid ts msg addr = some nc →
        submit_notification db uid ts msg addr
          = (db ++ [(create_notification db nc).2],
             some (create_notification db nc).2)
        ∧ (db ++ [(create_notification db nc).2]).length = db.length + 1
        ∧ (create_notification db nc).2.status
            = NotificationStatus.pending) := by
  constructor
  · intro db uid ts addr
    unfold submit_notification validate_notification_create
    cases hp : parse_notification_type ts with
    | none => rfl
    | some t => rfl
  · intro db uid ts msg addr nc hv
    refine ⟨?_, ?_, rfl⟩
    · unfold submit_notification
      rw [hv]
      rfl
    · rw [List.length_append]
      rfl

/-- Witness for C7 at concrete submissions. -/
theorem C7_submission_witness :
    submit_notification [] 7 "email" "" none = ([], none)
    ∧ submit_notification [] 7 "email" "hi" none
        = ([(create_notification []
              ⟨7, NotificationType.email, "hi", none⟩).2],
           some (create_notification []
              ⟨7, NotificationType.email, "hi", none⟩).2)
    ∧ (create_notification []
        ⟨7, NotificationType.email, "hi", none⟩).2.status
        = NotificationStatus.pending := by
  have h2 := C7_submission.2 [] 7 "email" "hi" none
    ⟨7, NotificationType.email, "hi", none⟩ rfl
  exact ⟨C7_submission.1 [] 7 "email" none, h2.1, h2.2.2⟩

lemma get_map_overwrite (db : List Notification) (nid : Nat)
    (st : NotificationStatus) (n : Notification)
    (hget : get_notification_by_id db nid = some n) :
    get_notification_by_id (db.map (overwriteStatus nid st)) nid
      = some (setStatus n st) := by
  have h := get_update_self db nid st n hget
  rw [update_found db nid st n hget] at h
  exact h

lemma success_path_not_in_app (db : List Notification) (item : WorkItem)
    (r : Nat) (env : ExecEnv) (n : Notification)
    (hin : (item.notification_type == "in-app") = false)
    (hs : env.storeOk = true)
    (hget : get_notification_by_id db item.notification_id = some n) :
    success_path db item r env
      = ⟨db.map (overwriteStatus item.notification_id
            NotificationStatus.sent),
         [NotificationStatus.sent], true, [], false⟩ := by
  have hp := task_update_status_found db item.notification_id
    NotificationStatus.sent n hget
  rw [← hs] at hp
  unfold success_path
  rw [hp, hin]
  rfl

lemma success_path_in_app (db : List Notification) (item : WorkItem)
    (r : Nat) (env : ExecEnv) (n : Notification)
    (hin : (item.notification_type == "in-app") = true)
    (hs : env.storeOk = true)
    (hget : get_notification_by_id db item.notification_id = some n) :
    success_path db item r env
      = ⟨(db.map (overwriteStatus item.notification_id
            NotificationStatus.sent)).map
              (overwriteStatus item.notification_id
                NotificationStatus.delivered),
         [NotificationStatus.sent, NotificationStatus.delivered], true, [],
         false⟩ := by
  have hp := task_update_status_found db item.notification_id
    NotificationStatus.sent n hget
  have hget1 := get_map_overwrite db item.notification_id
    NotificationStatus.sent n hget
  have hp2 := task_update_status_found _ item.notification_id
    NotificationStatus.delivered _ hget1
  rw [← hs] at hp hp2
  unfold success_path
  rw [hp]
  dsimp only
  rw [if_pos hin, hp2]
  rfl

/-- Claim C4: a work item whose channel string is outside the recognized set
{"email", "sms", "in-app"} transitions the record straight to failed on the
first attempt and the task returns normally (acknowledged): no sender is
invoked, nothing is re-enqueued, the task does not fail permanently. -/
theorem C4_unknown_channel (db : List Notification) (item : WorkItem)
    (r : Nat) (env : ExecEnv) (n : Notification)
    (h1 : (item.notification_type == "email") = false)
    (h2 : (item.notification_type == "sms") = false)
    (h3 : (item.notification_type == "in-app") = false)
    (hs : env.storeOk = true)
    (hget : get_notification_by_id db item.notification_id = some n) :
    send_notification_task db item r env
      = ⟨db.map (overwriteStatus item.notification_id
            NotificationStatus.failed),
         [NotificationStatus.failed], false, [], false⟩
    ∧ get_notification_by_id (send_notification_task db item r env).db
        item.notification_id
        = some (setStatus n NotificationStatus.failed) := by
  have h := send_task_unknown db item r env n h1 h2 h3 hs hget
  refine ⟨h, ?_⟩
  rw [h]
  exact get_map_overwrite db item.notification_id
    NotificationStatus.failed n hget

/-- Witness for C4: channel string "push". -/
theorem C4_unknown_channel_witness :
    send_notification_task db0 itemUnknown 0 envUp
      = ⟨db0.map (overwriteStatus 1 NotificationStatus.failed),
         [NotificationStatus.failed], false, [], false⟩
    ∧ get_notification_by_id
        (send_notification_task db0 itemUnknown 0 envUp).db 1
        = some (setStatus notif1 NotificationStatus.failed) :=
  C4_unknown_channel db0 itemUnknown 0 envUp notif1 rfl rfl rfl rfl rfl

/-- Claim C5: a transient sender failure at 0-based attempt r with
r < maxRetries re-enqueues the item with delay baseDelay * (r + 1) (60, 120,
180 under the defaults), a monotonically non-decreasing backoff. -/
theorem C5_linear_backoff (db : List Notification) (item : WorkItem)
    (r : Nat) (k : ExcKind) (env : ExecEnv)
    (hk : senderRaisable k)
    (ht : item.notification_type = "email"
        ∨ item.notification_type = "sms")
    (ha : item.recipient_address ≠ none)
    (hsf : env.senderFail = some k)
    (hs : env.storeOk = true)
    (hr : r < TASK_RETRY_MAX_RETRIES) :
    (send_notification_task db item r env).resends
      = [TASK_RETRY_DEFAULT_DELAY * (r + 1)]
    ∧ TASK_RETRY_DEFAULT_DELAY * (r + 1)
        ≤ TASK_RETRY_DEFAULT_DELAY * (r + 1 + 1) := by
  have hcond : (item.notification_type == "email"
      || item.notification_type == "sms") = true := by
    cases ht with
    | inl h => rw [h]; rfl
    | inr h => rw [h]; rfl
  obtain ⟨a, ha'⟩ := Option.ne_none_iff_exists'.mp ha
  rw [send_task_sender_fail db item r env a k hcond ha' hsf]
  constructor
  · cases hk with
    | inl h =>
        subst h
        rw [handle_smtp_retry item r env db [] true hr]
    | inr h =>
        subst h
        obtain ⟨p, hp⟩ := task_update_status_ok_exists db
          item.notification_id NotificationStatus.failed
        rw [← hs] at hp
        cases p with
        | mk db' ws' =>
            simp only [handle_exception]
            rw [if_pos hr, hp]
  · exact Nat.mul_le_mul (Nat.le_refl _) (by omega)

/-- Witness for C5: the default delays 60, 120, 180 at attempts 0, 1, 2. -/
theorem C5_linear_backoff_witness :
    (send_notification_task db0 item1 0 envSmtp).resends = [60]
    ∧ (send_notification_task db0 item1 1 envSmtp).resends = [120]
    ∧ (send_notification_task db0 item1 2 envSmtp).resends = [180] := by
  have h0 := C5_linear_backoff db0 item1 0 ExcKind.smtp envSmtp
    (Or.inl rfl) (Or.inl rfl) (by simp [item1]) rfl rfl (by decide)
  have h1 := C5_linear_backoff db0 item1 1 ExcKind.smtp envSmtp
    (Or.inl rfl) (Or.inl rfl) (by simp [item1]) rfl rfl (by decide)
  have h2 := C5_linear_backoff db0 item1 2 ExcKind.smtp envSmtp
    (Or.inl rfl) (Or.inl rfl) (by simp [item1]) rfl rfl (by decide)
  exact ⟨h0.1, h1.1, h2.1⟩

/-- Claim C6: when the sender succeeds the executor writes sent; for channel
"in-app" it additionally writes delivered as a second sequential write, so a
successful in-app delivery ends delivered (having passed through sent) while
a successful email/sms delivery ends sent; nothing is re-enqueued. -/
theorem C6_success_statuses (db : List Notification) (item : WorkItem)
    (r : Nat) (env : ExecEnv) (n : Notification)
    (hsf : env.senderFail = none) (hs : env.storeOk = true)
    (hget : get_notification_by_id db item.notification_id = some n) :
    ((item.notification_type = "email"
        ∨ item.notification_type = "sms") →
      item.recipient_address ≠ none →
      (send_notification_task db item r env).writes
          = [NotificationStatus.sent]
      ∧ (send_notification_task db item r env).resends = []
      ∧ get_notification_by_id (send_notification_task db item r env).db
          item.notification_id = some (setStatus n NotificationStatus.sent))
    ∧ (item.notification_type = "in-app" →
      (send_notification_task db item r env).writes
          = [NotificationStatus.sent, NotificationStatus.delivered]
      ∧ (send_notification_task db item r env).resends = []
      ∧ get_notification_by_id (send_notification_task db item r env).db
          item.notification_id
          = some (setStatus n NotificationStatus.delivered)) := by
  constructor
  · intro ht ha
    have hcond : (item.notification_type == "email"
        || item.notification_type == "sms") = true := by
      cases ht with
      | inl h => rw [h]; rfl
      | inr h => rw [h]; rfl
    have hin : (item.notification_type == "in-app") = false := by
      cases ht with
      | inl h => rw [h]; rfl
      | inr h => rw [h]; rfl
    obtain ⟨a, ha'⟩ := Option.ne_none_iff_exists'.mp ha
    rw [send_task_sender_ok db item r env a hcond ha' hsf,
        success_path_not_in_app db item r env n hin hs hget]
    exact ⟨rfl, rfl,
      get_map_overwrite db item.notification_id NotificationStatus.sent
        n hget⟩
  · intro ht
    have hin : (item.notification_type == "in-app") = true := by
      rw [ht]
      rfl
    rw [send_task_in_app db item r env ht,
        success_path_in_app db item r env n hin hs hget]
    refine ⟨rfl, rfl, ?_⟩
    have hget1 := get_map_overwrite db item.notification_id
      NotificationStatus.sent n hget
    exact get_map_overwrite _ item.notification_id
      NotificationStatus.delivered (setStatus n NotificationStatus.sent)
      hget1

/-- Witness for C6: a successful email delivery and a successful in-app
delivery. -/
theorem C6_success_statuses_witness :
    (send_notification_task db0 item1 0 envUp).writes
        = [NotificationStatus.sent]
    ∧ (send_notification_task dbInApp itemInApp 0 envUp).writes
        = [NotificationStatus.sent, NotificationStatus.delivered]
    ∧ get_notification_by_id
        (send_notification_task dbInApp itemInApp 0 envUp).db 2
        = some (setStatus notif2 NotificationStatus.delivered) := by
  have h1 := (C6_success_statuses db0 item1 0 envUp notif1 rfl rfl rfl).1
    (Or.inl rfl) (by simp [item1])
  have h2 := (C6_success_statuses dbInApp itemInApp 0 envUp notif2
    rfl rfl rfl).2 rfl
  exact ⟨h1.1, h2.1, h2.2.2⟩

lemma send_task_sendAttempted_channel (db : List Notification)
    (item : WorkItem) (r : Nat) (env : ExecEnv)
    (ht : item.notification_type = "email"
        ∨ item.notification_type = "sms") :
    (send_notification_task db item r env).sendAttempted = true := by
  have hcond : (item.notification_type == "email"
      || item.notification_type == "sms") = true := by
    cases ht with
    | inl h => rw [h]; rfl
    | inr h => rw [h]; rfl
  cases hra : item.recipient_address with
  | none =>
      rw [send_task_no_address db item r env hcond hra,
        handle_exception_sendAttempted]
  | some a =>
      cases hsf : env.senderFail with
      | some k =>
          rw [send_task_sender_fail db item r env a k hcond hra hsf,
            handle_exception_sendAttempted]
      | none =>
          rw [send_task_sender_ok db item r env a hcond hra hsf,
            success_path_sendAttempted]

/-- Claim C1 counterexample: notif1/item1 with a succeeding sender and a
store that is unreachable exactly when the post-send status write runs: the
execution re-enqueues the item although the send itself succeeded, and the
redelivery chain performs a second channel send. -/
theorem C1_counterexample :
    (send_notification_task db0 item1 0 envDown).resends ≠ []
    ∧ (run_task_chain [envDown, envUp] db0 item1 0).sendCount = 2 := by
  decide

/-- Claim C1 (amended): when the status write after a successful send fails
while retries remain, the task does not retry the status write independently
of the send: the generic exception handler re-enqueues the whole work item
(two copies: one from the nested handler's Retry, one from the
decorator-level autoretry after the nested failed-write also raises), no
status is recorded, and the channel sender runs again on every redelivery of
an email/sms item. -/
theorem C1_store_failure_redelivers (db : List Notification)
    (item : WorkItem) (r : Nat) (env : ExecEnv)
    (ht : item.notification_type = "email"
        ∨ item.notification_type = "sms")
    (ha : item.recipient_address ≠ none)
    (hsf : env.senderFail = none) (hs : env.storeOk = false)
    (hr : r < TASK_RETRY_MAX_RETRIES) :
    (send_notification_task db item r env).resends
      = [TASK_RETRY_DEFAULT_DELAY * (r + 1), TASK_RETRY_DEFAULT_DELAY]
    ∧ (send_notification_task db item r env).writes = []
    ∧ (send_notification_task db item r env).sendAttempted = true
    ∧ ∀ (db' : List Notification) (r' : Nat) (env' : ExecEnv),
        (send_notification_task db' item r' env').sendAttempted = true := by
  have hcond : (item.notification_type == "email"
      || item.notification_type == "sms") = true := by
    cases ht with
    | inl h => rw [h]; rfl
    | inr h => rw [h]; rfl
  obtain ⟨a, ha'⟩ := Option.ne_none_iff_exists'.mp ha
  have hsend := send_task_sender_ok db item r env a hcond ha' hsf
  have hsp : success_path db item r env
      = handle_exception item r env db [] true ExcKind.generic := by
    have hp : task_update_status env.storeOk db item.notification_id
        NotificationStatus.sent = Except.error ExcKind.generic := by
      rw [hs]
      rfl
    unfold success_path
    rw [hp]
  rw [hsend, hsp, handle_generic_store_down item r env db [] true hr hs]
  refine ⟨rfl, rfl, rfl, ?_⟩
  intro db' r' env'
  exact send_task_sendAttempted_channel db' item r' env' ht

/-- Witness for the amended C1 at the concrete failing execution. -/
theorem C1_store_failure_redelivers_witness :
    (send_notification_task db0 item1 0 envDown).resends = [60, 60]
    ∧ (send_notification_task db0 item1 0 envDown).writes = []
    ∧ (send_notification_task db0 item1 0 envDown).sendAttempted = true
    ∧ (send_notification_task db0 item1 1 envUp).sendAttempted = true := by
  have h := C1_store_failure_redelivers db0 item1 0 envDown (Or.inl rfl)
    (by simp [item1]) rfl rfl (by decide)
  exact ⟨h.1, h.2.1, h.2.2.1, h.2.2.2 db0 1 envUp⟩

/-- Claim C2 (code bug): an email item whose SMTP send raises on every
attempt is retried three times with linear backoff and then fails
permanently, but the record is never written failed: the SMTPException
handler writes no status, so after the full chain (4 sender invocations, no
re-enqueue at the end) the row still holds pending. -/
theorem C2_smtp_exhaustion_leaves_pending :
    run_task_chain [envSmtp, envSmtp, envSmtp, envSmtp] db0 item1 0
        = ⟨db0, [], 4⟩
    ∧ (send_notification_task db0 item1 TASK_RETRY_MAX_RETRIES
        envSmtp).permafail = true
    ∧ (send_notification_task db0 item1 TASK_RETRY_MAX_RETRIES
        envSmtp).resends = []
    ∧ notif1.status = NotificationStatus.pending := by
  decide

/-- Claim C3 counterexample: an email item with no recipientAddress does not
fail fast on the first attempt: the sender is invoked (it raises inside the
transport) and a retry is scheduled. -/
theorem C3_counterexample :
    (send_notification_task db0 itemNoAddr 0 envUp).sendAttempted = true
    ∧ (send_notification_task db0 itemNoAddr 0 envUp).resends
        = [TASK_RETRY_DEFAULT_DELAY] := by
  decide

/-- Claim C3 (amended): a missing recipientAddress is not checked before
dispatch: the sender is invoked with the absent address and raises, and the
executor handles it like any transient generic failure — the nested handler
writes failed, yet the item is still re-enqueued with linear backoff while
retries remain (the sender re-invoked at each delivery); only with retries
exhausted does the execution end with the failed write and no
re-enqueue. -/
theorem C3_missing_address_retried (db : List Notification)
    (item : WorkItem) (r : Nat) (env : ExecEnv) (n : Notification)
    (ht : item.notification_type = "email"
        ∨ item.notification_type = "sms")
    (ha : item.recipient_address = none)
    (hs : env.storeOk = true)
    (hget : get_notification_by_id db item.notification_id = some n) :
    (send_notification_task db item r env).sendAttempted = true
    ∧ (send_notification_task db item r env).writes
        = [NotificationStatus.failed]
    ∧ (r < TASK_RETRY_MAX_RETRIES →
        (send_notification_task db item r env).resends
          = [TASK_RETRY_DEFAULT_DELAY * (r + 1)])
    ∧ (TASK_RETRY_MAX_RETRIES ≤ r →
        (send_notification_task db item r env).resends = []) := by
  have hcond : (item.notification_type == "email"
      || item.notification_type == "sms") = true := by
    cases ht with
    | inl h => rw [h]; rfl
    | inr h => rw [h]; rfl
  rw [send_task_no_address db item r env hcond ha,
      handle_generic_found item r env db n hs hget]
  by_cases hr : r < TASK_RETRY_MAX_RETRIES
  · rw [if_pos hr]
    exact ⟨rfl, rfl, fun _ => rfl, fun hle => absurd hr (by omega)⟩
  · rw [if_neg hr]
    exact ⟨rfl, rfl, fun h => absurd h hr, fun _ => rfl⟩

/-- Witness for the amended C3 at the first attempt. -/
theorem C3_missing_address_retried_witness :
    (send_notification_task db0 itemNoAddr 0 envUp).sendAttempted = true
    ∧ (send_notification_task db0 itemNoAddr 0 envUp).writes
        = [NotificationStatus.failed]
    ∧ (send_notification_task db0 itemNoAddr 0 envUp).resends = [60] := by
  have h := C3_missing_address_retried db0 itemNoAddr 0 envUp notif1
    (Or.inl rfl) rfl rfl rfl
  exact ⟨h.1, h.2.1, h.2.2.1 (by decide)⟩

/-- Claim C8 (code bug): on a trace where the first delivery attempt raises
a generic transient error and the second succeeds, the nested handler writes
failed before the retry and the successful second attempt then writes sent:
the stored status sequence leaves the terminal failed state (no pending
write occurs, so only the terminal-status half of the claim is violated). -/
theorem C8_terminal_failed_overwritten :
    (run_task_chain [envGen, envUp] db0 item1 0).writes
        = [NotificationStatus.failed, NotificationStatus.sent]
    ∧ get_notification_by_id
        (run_task_chain [envGen, envUp] db0 item1 0).db 1
        = some (setStatus notif1 NotificationStatus.sent) := by
  decide
